import Mathlib

/-!
Shallow embedding of the WebDevUtils feature-toggle registry
(`src/src/lib.rs`): a registry (`SiteFeatureSystem`) wrapping a flag
store and a map of features, a builder (`SiteFeatureBuilder`), and the
`set_enabled` lifecycle state machine.

Modelling conventions:
* The Rust trait `SiteFeatureStorage` (the pluggable Flag Store) becomes a
  structure of operations over an abstract state type `σ`; `&mut self`
  methods return the new state, and the Rust `Result<(), FeatureError>` is
  `Except FeatureError Unit`.
* The Rust trait object `Box<dyn SiteFeature>` becomes a record
  `SiteFeature α` whose mutable interior is a state of type `α`; the
  lifecycle hooks are state transformers `α → α × Except FeatureError Unit`.
  Default trait methods become default field values.
* `HashMap<String, Box<dyn SiteFeature>>` becomes an association list; the
  helpers `fmGet` / `fmReplace` / `fmInsert` model `HashMap::get_mut` /
  in-place mutation through the `&mut` reference / `HashMap::insert`
  (which returns the previous value).
* `axum::Router` is opaque to the registry: it is only ever created empty
  (`Router::new()`) and combined with `nest`, so it is modelled by the free
  structure over those two operations.
* Hook invocations and flag-store writes performed by `set_enabled` are
  recorded in a ghost event list (`Event`), so that claims about which
  hooks run and whether a store write happens can be stated; the event
  list has no influence on the computed result.
* `log::info!` / `log::warn!` in the builder become an explicit list of
  `LogEntry` values returned next to the builder.
-/

/-- `FeatureError` from the source; the borrowed `&str` reason becomes a
`String`. -/
inductive FeatureError where
  | Failure (reason : String) : FeatureError
  | DoesNotExist : FeatureError
deriving DecidableEq, Repr

/-- The Flag Store contract (trait `SiteFeatureStorage`) over a state type
`σ`: `get_enabled(&self, id) -> bool` and
`set_enabled(&mut self, id, enabled) -> Result<(), FeatureError>`. -/
structure SiteFeatureStorage (σ : Type) where
  get_enabled : σ → String → Bool
  set_enabled : σ → String → Bool → σ × Except FeatureError Unit

/-- The routing surface: `axum::Router` as the registry uses it — an empty
router (`Router::new()`) and `nest(path, sub)`. -/
inductive Router where
  | new : Router
  | nested (base : Router) (path : String) (sub : Router) : Router
deriving DecidableEq, Repr

/-- `router.nest(path, sub)` from axum, as the free operation. -/
def Router.nest (base : Router) (path : String) (sub : Router) : Router :=
  Router.nested base path sub

/-- The trait `SiteFeature` over an internal-state type `α`: required
methods `get_router` and `setup`, defaulted methods `shutdown` (no-op
success), `get_subpath`, `get_name`, `get_description`, and the stable
identifier `get_id`. -/
structure SiteFeature (α : Type) where
  state : α
  setupFn : α → α × Except FeatureError Unit
  shutdownFn : α → α × Except FeatureError Unit := fun s => (s, Except.ok ())
  id : String
  subpath : String := "/"
  name : String := "Unnamed Feature"
  description : String := "No Description"
  routerFn : α → Router

/-- `v.setup()` where `v` is the feature behind the `&mut` reference: the
hook transforms the feature's internal state and yields a result. -/
def SiteFeature.runSetup (f : SiteFeature α) : SiteFeature α × Except FeatureError Unit :=
  ({ f with state := (f.setupFn f.state).1 }, (f.setupFn f.state).2)

/-- `v.shutdown()` where `v` is the feature behind the `&mut` reference. -/
def SiteFeature.runShutdown (f : SiteFeature α) : SiteFeature α × Except FeatureError Unit :=
  ({ f with state := (f.shutdownFn f.state).1 }, (f.shutdownFn f.state).2)

/-- The feature map `HashMap<String, Box<dyn SiteFeature>>`, modelled as an
association list. -/
abbrev FeatureMap (α : Type) := List (String × SiteFeature α)

/-- `HashMap::get` / `get_mut` lookup: the feature stored under `id`. -/
def fmGet (m : FeatureMap α) (id : String) : Option (SiteFeature α) :=
  match m with
  | [] => none
  | (k, f) :: rest => if k = id then some f else fmGet rest id

/-- Mutation through the `&mut` reference returned by `get_mut`: the entry
under `id` (if any) is replaced, every other entry is untouched. -/
def fmReplace (m : FeatureMap α) (id : String) (f : SiteFeature α) : FeatureMap α :=
  match m with
  | [] => []
  | (k, g) :: rest => if k = id then (k, f) :: rest else (k, g) :: fmReplace rest id f

/-- `HashMap::insert`: stores `f` under `id` and returns the previous value
stored there, if any. -/
def fmInsert (m : FeatureMap α) (id : String) (f : SiteFeature α) :
    FeatureMap α × Option (SiteFeature α) :=
  match m with
  | [] => ([(id, f)], none)
  | (k, g) :: rest =>
    if k = id then ((k, f) :: rest, some g)
    else
      let out := fmInsert rest id f
      ((k, g) :: out.1, out.2)

/-- The keys of the feature map: the set of registered identifiers. -/
def fmKeys (m : FeatureMap α) : List String := m.map Prod.fst

/-- Ghost events recording what `set_enabled` does: which lifecycle hook it
invokes on which feature, and which flag-store write calls it makes. -/
inductive Event where
  | setupCall (id : String) : Event
  | shutdownCall (id : String) : Event
  | storeWrite (id : String) (enabled : Bool) : Event
deriving DecidableEq, Repr

/-- Whether a ghost event is a lifecycle-hook invocation. -/
def Event.isHook : Event → Bool
  | Event.setupCall _ => true
  | Event.shutdownCall _ => true
  | Event.storeWrite _ _ => false

/-- The lifecycle-hook invocations among a list of ghost events. -/
def hookEvents (evs : List Event) : List Event := evs.filter Event.isHook

/-- `SiteFeatureSystem<T>`: the registry owning a flag-store state and the
feature map. -/
structure SiteFeatureSystem (σ : Type) (α : Type) where
  storage : σ
  features : FeatureMap α

/-- `SiteFeatureSystem::get_all_ids`: pushes each feature's own `get_id()`
into a vector while iterating the map. -/
def SiteFeatureSystem.get_all_ids (sys : SiteFeatureSystem σ α) : List String :=
  sys.features.foldl (fun vec e => vec ++ [e.2.id]) []

/-- `SiteFeatureSystem::get_router`: starts from `Router::new()` and, for
every feature in the map, nests that feature's own router under its
subpath. -/
def SiteFeatureSystem.get_router (sys : SiteFeatureSystem σ α) : Router :=
  sys.features.foldl
    (fun router e => router.nest e.2.subpath (e.2.routerFn e.2.state))
    Router.new

/-- `SiteFeatureSystem::get_enabled`: pure delegation to the underlying
store. -/
def SiteFeatureSystem.get_enabled (S : SiteFeatureStorage σ)
    (sys : SiteFeatureSystem σ α) (id : String) : Bool :=
  S.get_enabled sys.storage id

/-- `SiteFeatureSystem::set_enabled`, instrumented with the ghost event
list. Mirrors the source: read the current flag; if it already equals
`enabled`, return `Ok(())`; otherwise look up the feature (absent →
`DoesNotExist`), run `shutdown` when the current flag is `true` and `setup`
when it is `false`, propagating a hook error with `?` (the hook's mutation
of the feature has already happened); on hook success call the store's
`set_enabled`, discarding its result, and return `Ok(())`. -/
def SiteFeatureSystem.set_enabled_ev (S : SiteFeatureStorage σ)
    (sys : SiteFeatureSystem σ α) (id : String) (enabled : Bool) :
    SiteFeatureSystem σ α × Except FeatureError Unit × List Event :=
  let prev_enabled := S.get_enabled sys.storage id
  if prev_enabled = enabled then
    (sys, Except.ok (), [])
  else
    match fmGet sys.features id with
    | none => (sys, Except.error FeatureError.DoesNotExist, [])
    | some v =>
      let hooked := match prev_enabled with
        | true => v.runShutdown
        | false => v.runSetup
      let ev := match prev_enabled with
        | true => Event.shutdownCall id
        | false => Event.setupCall id
      let sys2 : SiteFeatureSystem σ α :=
        { sys with features := fmReplace sys.features id hooked.1 }
      match hooked.2 with
      | Except.error e => (sys2, Except.error e, [ev])
      | Except.ok _ =>
        ({ sys2 with storage := (S.set_enabled sys2.storage id enabled).1 },
         Except.ok (), [ev, Event.storeWrite id enabled])

/-- `SiteFeatureSystem::set_enabled` as the caller sees it: the new
registry and the returned `Result`, without the ghost events. -/
def SiteFeatureSystem.set_enabled (S : SiteFeatureStorage σ)
    (sys : SiteFeatureSystem σ α) (id : String) (enabled : Bool) :
    SiteFeatureSystem σ α × Except FeatureError Unit :=
  ((sys.set_enabled_ev S id enabled).1, (sys.set_enabled_ev S id enabled).2.1)

/-- A log line emitted by the builder: `info!` or `warn!`. -/
inductive LogEntry where
  | info (msg : String) : LogEntry
  | warn (msg : String) : LogEntry
deriving DecidableEq, Repr

/-- The `info!` text of `add_feature`:
`Adding Feature {name} (id of '{id}')`. -/
def addInfoMsg (name id : String) : String :=
  "Adding Feature " ++ name ++ " (id of \x27" ++ id ++ "\x27)"

/-- The `warn!` text of `add_feature` on an identifier collision:
`Feature {name} (id of '{id}') overrides {prev_name}`. -/
def overrideWarnMsg (name id prev_name : String) : String :=
  "Feature " ++ name ++ " (id of \x27" ++ id ++ "\x27) overrides " ++ prev_name

/-- `SiteFeatureBuilder`: the transient feature map accumulated before
`build`. -/
structure SiteFeatureBuilder (α : Type) where
  features : FeatureMap α

/-- `SiteFeatureBuilder::new`: empty feature map. -/
def SiteFeatureBuilder.new : SiteFeatureBuilder α := { features := [] }

/-- `SiteFeatureBuilder::add_feature`: logs the `info!` line, inserts the
feature under its own id, and if a previous feature was stored there also
logs the `warn!` collision line naming both; returns the builder for
chaining together with the emitted log lines. -/
def SiteFeatureBuilder.add_feature (b : SiteFeatureBuilder α) (f : SiteFeature α) :
    SiteFeatureBuilder α × List LogEntry :=
  let id := f.id
  let name := f.name
  let inserted := fmInsert b.features id f
  match inserted.2 with
  | some v =>
    ({ features := inserted.1 },
     [LogEntry.info (addInfoMsg name id),
      LogEntry.warn (overrideWarnMsg name id v.name)])
  | none =>
    ({ features := inserted.1 }, [LogEntry.info (addInfoMsg name id)])

/-- `SiteFeatureBuilder::build`: wraps the accumulated feature map and the
given store into a registry, doing nothing else. -/
def SiteFeatureBuilder.build (b : SiteFeatureBuilder α) (storage : σ) :
    SiteFeatureSystem σ α :=
  { storage := storage, features := b.features }

/-- The registry's public operations, for stating lifetime invariants over
arbitrary call sequences. `get_enabled`, `get_all_ids` and `get_router`
take `&self` in the source and so leave the registry untouched;
`set_enabled` takes `&mut self` and yields the updated registry. -/
inductive RegistryOp where
  | getEnabled (id : String) : RegistryOp
  | setEnabled (id : String) (v : Bool) : RegistryOp
  | getAllIds : RegistryOp
  | getRouter : RegistryOp

/-- The registry state after performing one public operation. -/
def runOp (S : SiteFeatureStorage σ) (sys : SiteFeatureSystem σ α) :
    RegistryOp → SiteFeatureSystem σ α
  | RegistryOp.setEnabled id v => (sys.set_enabled S id v).1
  | RegistryOp.getEnabled _ => sys
  | RegistryOp.getAllIds => sys
  | RegistryOp.getRouter => sys

/-- The registry state after a sequence of public operations. -/
def runOps (S : SiteFeatureStorage σ) (sys : SiteFeatureSystem σ α)
    (ops : List RegistryOp) : SiteFeatureSystem σ α :=
  ops.foldl (runOp S) sys

deriving instance DecidableEq for Except

/-- The entries `(path, sub)` nested into a router, in nesting order: the
observable content of the composite tree built by `get_router`. -/
def Router.nestedPairs : Router → List (String × Router)
  | Router.new => []
  | Router.nested base path sub => Router.nestedPairs base ++ [(path, sub)]

/-- Flag lookup in an in-memory association-list store; ids with no prior
record default to `false`, as the Flag Store contract asks. -/
def lookupFlag : List (String × Bool) → String → Bool
  | [], _ => false
  | (k, b) :: rest, id => if k = id then b else lookupFlag rest id

/-- Flag write in an in-memory association-list store. -/
def writeFlag : List (String × Bool) → String → Bool → List (String × Bool)
  | [], id, b => [(id, b)]
  | (k, c) :: rest, id, b =>
    if k = id then (k, b) :: rest else (k, c) :: writeFlag rest id b

/-- A well-behaved in-memory Flag Store: writes always succeed and are
visible to later reads. -/
def listStore : SiteFeatureStorage (List (String × Bool)) :=
  { get_enabled := lookupFlag
    set_enabled := fun st id b => (writeFlag st id b, Except.ok ()) }

/-- A Flag Store whose writes always fail and change nothing — a legal
implementation of the store contract, used to exercise the registry's
handling of store-write failures. -/
def brokenStore : SiteFeatureStorage (List (String × Bool)) :=
  { get_enabled := lookupFlag
    set_enabled := fun st _ _ => (st, Except.error (FeatureError.Failure "write failed")) }

/-- The spec's concrete scenario feature: `setup` sets an internal counter
to 1, `shutdown` sets it to 0. -/
def counterFeature : SiteFeature Nat :=
  { state := 0
    setupFn := fun _ => (1, Except.ok ())
    shutdownFn := fun _ => (0, Except.ok ())
    id := "log"
    subpath := "/log"
    routerFn := fun _ => Router.new }

/-- A feature whose `setup` always fails with `Failure("x")`. -/
def failingFeature : SiteFeature Nat :=
  { state := 0
    setupFn := fun n => (n, Except.error (FeatureError.Failure "x"))
    id := "bad"
    routerFn := fun _ => Router.new }

lemma lookupFlag_writeFlag (st : List (String × Bool)) (id : String) (b : Bool) :
    lookupFlag (writeFlag st id b) id = b := by
  induction st with
  | nil => simp [writeFlag, lookupFlag]
  | cons e rest ih =>
    obtain ⟨k, c⟩ := e
    by_cases hk : k = id
    · simp [writeFlag, lookupFlag, hk]
    · simp [writeFlag, lookupFlag, hk, ih]

/-- `listStore` satisfies read-after-write agreement: after its own
`set_enabled(id, b)` the flag reads back as `b`. -/
lemma listStore_agree :
    ∀ (st : List (String × Bool)) (id : String) (b : Bool),
      listStore.get_enabled (listStore.set_enabled st id b).1 id = b := by
  intro st id b
  simpa [listStore] using lookupFlag_writeFlag st id b

lemma set_enabled_ev_of_eq (S : SiteFeatureStorage σ) (sys : SiteFeatureSystem σ α)
    (id : String) (v : Bool) (h : S.get_enabled sys.storage id = v) :
    sys.set_enabled_ev S id v = (sys, Except.ok (), []) := by
  simp [SiteFeatureSystem.set_enabled_ev, h]

lemma set_enabled_ev_of_absent (S : SiteFeatureStorage σ) (sys : SiteFeatureSystem σ α)
    (id : String) (v : Bool) (hne : S.get_enabled sys.storage id ≠ v)
    (hf : fmGet sys.features id = none) :
    sys.set_enabled_ev S id v = (sys, Except.error FeatureError.DoesNotExist, []) := by
  simp [SiteFeatureSystem.set_enabled_ev, hne, hf]

lemma set_enabled_ev_of_found (S : SiteFeatureStorage σ) (sys : SiteFeatureSystem σ α)
    (id : String) (v : Bool) (p : Bool) (f : SiteFeature α)
    (hp : S.get_enabled sys.storage id = p) (hne : p ≠ v)
    (hf : fmGet sys.features id = some f) :
    sys.set_enabled_ev S id v =
      (match (cond p f.runShutdown f.runSetup).2 with
       | Except.error e =>
         ({ sys with features := fmReplace sys.features id (cond p f.runShutdown f.runSetup).1 },
          Except.error e, [cond p (Event.shutdownCall id) (Event.setupCall id)])
       | Except.ok _ =>
         ({ storage := (S.set_enabled sys.storage id v).1,
            features := fmReplace sys.features id (cond p f.runShutdown f.runSetup).1 },
          Except.ok (),
          [cond p (Event.shutdownCall id) (Event.setupCall id), Event.storeWrite id v])) := by
  cases p with
  | false =>
    cases h2 : f.runSetup.2 with
    | error e => simp [SiteFeatureSystem.set_enabled_ev, hp, hne, hf, h2]
    | ok u => simp [SiteFeatureSystem.set_enabled_ev, hp, hne, hf, h2]
  | true =>
    cases h2 : f.runShutdown.2 with
    | error e => simp [SiteFeatureSystem.set_enabled_ev, hp, hne, hf, h2]
    | ok u => simp [SiteFeatureSystem.set_enabled_ev, hp, hne, hf, h2]

lemma set_enabled_ev_ok_flag (S : SiteFeatureStorage σ)
    (hS : ∀ (st : σ) (i : String) (b : Bool), S.get_enabled (S.set_enabled st i b).1 i = b)
    (sys : SiteFeatureSystem σ α) (id : String) (v : Bool)
    (hok : (sys.set_enabled_ev S id v).2.1 = Except.ok ()) :
    S.get_enabled (sys.set_enabled_ev S id v).1.storage id = v := by
  by_cases h : S.get_enabled sys.storage id = v
  · rw [set_enabled_ev_of_eq S sys id v h]
    exact h
  · cases hf : fmGet sys.features id with
    | none =>
      rw [set_enabled_ev_of_absent S sys id v h hf] at hok
      simp at hok
    | some f =>
      have hfound := set_enabled_ev_of_found S sys id v (S.get_enabled sys.storage id) f rfl h hf
      cases h2 : (cond (S.get_enabled sys.storage id) f.runShutdown f.runSetup).2 with
      | error e =>
        rw [hfound] at hok
        simp [h2] at hok
      | ok u =>
        rw [hfound]
        simp only [h2]
        exact hS sys.storage id v

lemma fmKeys_fmReplace (m : FeatureMap α) (id : String) (f : SiteFeature α) :
    fmKeys (fmReplace m id f) = fmKeys m := by
  induction m with
  | nil => rfl
  | cons e rest ih =>
    obtain ⟨k, g⟩ := e
    by_cases hk : k = id
    · simp [fmReplace, fmKeys, hk]
    · simp only [fmReplace, if_neg hk, fmKeys, List.map_cons]
      simpa [fmKeys] using ih

lemma fmKeys_set_enabled (S : SiteFeatureStorage σ) (sys : SiteFeatureSystem σ α)
    (id : String) (v : Bool) :
    fmKeys ((sys.set_enabled S id v).1.features) = fmKeys sys.features := by
  show fmKeys ((sys.set_enabled_ev S id v).1.features) = fmKeys sys.features
  by_cases h : S.get_enabled sys.storage id = v
  · rw [set_enabled_ev_of_eq S sys id v h]
  · cases hf : fmGet sys.features id with
    | none => rw [set_enabled_ev_of_absent S sys id v h hf]
    | some f =>
      rw [set_enabled_ev_of_found S sys id v (S.get_enabled sys.storage id) f rfl h hf]
      cases h2 : (cond (S.get_enabled sys.storage id) f.runShutdown f.runSetup).2 <;>
        simp [h2, fmKeys_fmReplace]

lemma fmGet_fmInsert_self (m : FeatureMap α) (id : String) (f : SiteFeature α) :
    fmGet (fmInsert m id f).1 id = some f := by
  induction m with
  | nil => simp [fmInsert, fmGet]
  | cons e rest ih =>
    obtain ⟨k, g⟩ := e
    by_cases hk : k = id
    · simp [fmInsert, fmGet, hk]
    · simp [fmInsert, fmGet, hk, ih]

lemma fmInsert_prev (m : FeatureMap α) (id : String) (f : SiteFeature α) :
    (fmInsert m id f).2 = fmGet m id := by
  induction m with
  | nil => simp [fmInsert, fmGet]
  | cons e rest ih =>
    obtain ⟨k, g⟩ := e
    by_cases hk : k = id
    · simp [fmInsert, fmGet, hk]
    · simp [fmInsert, fmGet, hk, ih]

lemma nestedPairs_foldl (l : List (String × SiteFeature α)) (r : Router) :
    (l.foldl (fun router e => router.nest e.2.subpath (e.2.routerFn e.2.state)) r).nestedPairs
      = r.nestedPairs ++ l.map (fun e => (e.2.subpath, e.2.routerFn e.2.state)) := by
  induction l generalizing r with
  | nil => simp
  | cons e rest ih =>
    rw [List.foldl_cons, ih]
    simp [Router.nest, Router.nestedPairs]

/-- A registry holding the single counter feature under `"log"`, over an
empty in-memory flag map (every flag reads `false`). -/
def sysOneCounter : SiteFeatureSystem (List (String × Bool)) Nat :=
  { storage := [], features := [("log", counterFeature)] }

/-- A registry holding the always-failing feature under `"bad"`, over an
empty in-memory flag map. -/
def sysOneFailing : SiteFeatureSystem (List (String × Bool)) Nat :=
  { storage := [], features := [("bad", failingFeature)] }

/-- C1, counterexample to the claim as stated: over a Flag Store whose own
`set_enabled` write fails and leaves the flag unchanged, the registry's
`set_enabled("log", true)` still returns success, yet the subsequent
`get_enabled("log")` returns `false`, not `true` — the store-write-failure
case is exactly where the claimed consistency breaks. -/
theorem C1_counterexample :
    (sysOneCounter.set_enabled brokenStore "log" true).2 = Except.ok () ∧
    SiteFeatureSystem.get_enabled brokenStore
      (sysOneCounter.set_enabled brokenStore "log" true).1 "log" = false := by
  constructor
  · decide
  · decide

/-- C1 (amended): for every registry over a Flag Store satisfying
read-after-write agreement (after the store's own `set_enabled(i, b)`,
`get_enabled(i)` returns `b`), if the registry's `set_enabled(id, v)`
returns success then a subsequent `get_enabled(id)` returns `v`. -/
theorem C1_set_get_consistency (S : SiteFeatureStorage σ)
    (hS : ∀ (st : σ) (i : String) (b : Bool), S.get_enabled (S.set_enabled st i b).1 i = b)
    (sys : SiteFeatureSystem σ α) (id : String) (v : Bool)
    (hok : (sys.set_enabled S id v).2 = Except.ok ()) :
    SiteFeatureSystem.get_enabled S (sys.set_enabled S id v).1 id = v :=
  set_enabled_ev_ok_flag S hS sys id v hok

/-- C1 witness: over the well-behaved in-memory store, enabling `"log"`
succeeds and `get_enabled("log")` then reads `true`. -/
theorem C1_witness :
    (sysOneCounter.set_enabled listStore "log" true).2 = Except.ok () ∧
    SiteFeatureSystem.get_enabled listStore
      (sysOneCounter.set_enabled listStore "log" true).1 "log" = true :=
  ⟨by decide,
   C1_set_get_consistency listStore listStore_agree sysOneCounter "log" true (by decide)⟩

/-- C2: for a registered feature whose current flag `p` differs from the
target `v`, if the invoked lifecycle hook (shutdown when `p` is `true`,
setup when `p` is `false`) fails with `Failure(msg)`, then `set_enabled`
returns exactly that error, the flag-store state is untouched, and the only
recorded event is the one hook call — no store write occurs. -/
theorem C2_hook_failure_rollback (S : SiteFeatureStorage σ)
    (sys : SiteFeatureSystem σ α) (id : String) (v : Bool) (p : Bool)
    (f : SiteFeature α) (msg : String)
    (hp : S.get_enabled sys.storage id = p) (hne : p ≠ v)
    (hf : fmGet sys.features id = some f)
    (hfail : (cond p f.runShutdown f.runSetup).2 = Except.error (FeatureError.Failure msg)) :
    (sys.set_enabled_ev S id v).2.1 = Except.error (FeatureError.Failure msg) ∧
    (sys.set_enabled_ev S id v).1.storage = sys.storage ∧
    (sys.set_enabled_ev S id v).2.2 =
      [cond p (Event.shutdownCall id) (Event.setupCall id)] := by
  rw [set_enabled_ev_of_found S sys id v p f hp hne hf]
  simp [hfail]

/-- C2 witness: with `"bad"` currently disabled and its `setup` failing
with `Failure("x")`, `set_enabled("bad", true)` returns that error, leaves
the store untouched, and records only the `setup` call. -/
theorem C2_witness :
    (sysOneFailing.set_enabled_ev listStore "bad" true).2.1 =
      Except.error (FeatureError.Failure "x") ∧
    (sysOneFailing.set_enabled_ev listStore "bad" true).1.storage = sysOneFailing.storage ∧
    (sysOneFailing.set_enabled_ev listStore "bad" true).2.2 =
      [cond false (Event.shutdownCall "bad") (Event.setupCall "bad")] :=
  C2_hook_failure_rollback listStore sysOneFailing "bad" true false failingFeature "x"
    (by decide) (by decide) rfl rfl

/-- C3: for an identifier with no registered feature whose current flag
differs from the target, `set_enabled` returns `DoesNotExist` and leaves
the whole registry unchanged, recording no event — no hook runs and the
persisted flag is untouched. -/
theorem C3_unknown_id_transition (S : SiteFeatureStorage σ)
    (sys : SiteFeatureSystem σ α) (id : String) (v : Bool)
    (hne : S.get_enabled sys.storage id ≠ v)
    (hf : fmGet sys.features id = none) :
    sys.set_enabled_ev S id v = (sys, Except.error FeatureError.DoesNotExist, []) :=
  set_enabled_ev_of_absent S sys id v hne hf

/-- C3 witness: `set_enabled("missing", true)` on a registry that knows
only `"log"` fails with `DoesNotExist` and changes nothing. -/
theorem C3_witness :
    sysOneCounter.set_enabled_ev listStore "missing" true =
      (sysOneCounter, Except.error FeatureError.DoesNotExist, []) :=
  C3_unknown_id_transition listStore sysOneCounter "missing" true (by decide) rfl

/-- C4, counterexample to the claim as stated: with `"bad"` disabled and
its `setup` hook always failing, two consecutive `set_enabled("bad", true)`
calls each invoke the `setup` hook — two lifecycle hooks across the two
calls, not at most one — and the second call returns an error, not
success. -/
theorem C4_counterexample :
    hookEvents ((sysOneFailing.set_enabled_ev listStore "bad" true).2.2 ++
        ((sysOneFailing.set_enabled_ev listStore "bad" true).1.set_enabled_ev
          listStore "bad" true).2.2) =
      [Event.setupCall "bad", Event.setupCall "bad"] ∧
    ((sysOneFailing.set_enabled_ev listStore "bad" true).1.set_enabled_ev
        listStore "bad" true).2.1 ≠ Except.ok () := by
  constructor
  · decide
  · decide

/-- C4 (amended): when the target equals the current persisted flag,
`set_enabled` returns success immediately with no hook and no store write
(even for an unregistered id); any single `set_enabled` call invokes at
most one lifecycle hook; and — provided the Flag Store satisfies
read-after-write agreement — whenever a `set_enabled(id, v)` call returns
success, an immediately repeated `set_enabled(id, v)` is a no-op success
invoking no hook, so at most one hook runs across the two calls. -/
theorem C4_noop_idempotence (S : SiteFeatureStorage σ) (sys : SiteFeatureSystem σ α)
    (id : String) (v : Bool) :
    (S.get_enabled sys.storage id = v → sys.set_enabled_ev S id v = (sys, Except.ok (), [])) ∧
    (hookEvents (sys.set_enabled_ev S id v).2.2).length ≤ 1 ∧
    ((∀ (st : σ) (i : String) (b : Bool), S.get_enabled (S.set_enabled st i b).1 i = b) →
      (sys.set_enabled_ev S id v).2.1 = Except.ok () →
      (sys.set_enabled_ev S id v).1.set_enabled_ev S id v =
        ((sys.set_enabled_ev S id v).1, Except.ok (), [])) := by
  refine ⟨fun h => set_enabled_ev_of_eq S sys id v h, ?_, fun hS hok => ?_⟩
  · by_cases h : S.get_enabled sys.storage id = v
    · rw [set_enabled_ev_of_eq S sys id v h]
      simp [hookEvents]
    · cases hf : fmGet sys.features id with
      | none =>
        rw [set_enabled_ev_of_absent S sys id v h hf]
        simp [hookEvents]
      | some f =>
        cases hb : S.get_enabled sys.storage id with
        | false =>
          rw [set_enabled_ev_of_found S sys id v false f hb (hb ▸ h) hf]
          cases h2 : (cond false f.runShutdown f.runSetup).2 <;>
            simp [h2, hookEvents, Event.isHook]
        | true =>
          rw [set_enabled_ev_of_found S sys id v true f hb (hb ▸ h) hf]
          cases h2 : (cond true f.runShutdown f.runSetup).2 <;>
            simp [h2, hookEvents, Event.isHook]
  · exact set_enabled_ev_of_eq S _ id v (set_enabled_ev_ok_flag S hS sys id v hok)

/-- A registry whose single counter feature `"log"` is already enabled in
the in-memory store. -/
def sysEnabledCounter : SiteFeatureSystem (List (String × Bool)) Nat :=
  { storage := [("log", true)], features := [("log", counterFeature)] }

/-- C4 witness: with `"log"` already enabled, `set_enabled("log", true)` is
a no-op success with no events; a single call invokes at most one hook; and
the repeated call is again a no-op success. -/
theorem C4_witness :
    sysEnabledCounter.set_enabled_ev listStore "log" true =
      (sysEnabledCounter, Except.ok (), []) ∧
    (hookEvents (sysEnabledCounter.set_enabled_ev listStore "log" true).2.2).length ≤ 1 ∧
    (sysEnabledCounter.set_enabled_ev listStore "log" true).1.set_enabled_ev
        listStore "log" true =
      ((sysEnabledCounter.set_enabled_ev listStore "log" true).1, Except.ok (), []) :=
  ⟨(C4_noop_idempotence listStore sysEnabledCounter "log" true).1 (by decide),
   (C4_noop_idempotence listStore sysEnabledCounter "log" true).2.1,
   (C4_noop_idempotence listStore sysEnabledCounter "log" true).2.2 listStore_agree (by decide)⟩

/-- C5: for a registered feature whose current flag `p` differs from the
target `v`, `set_enabled` invokes exactly one lifecycle hook — `shutdown`
when `p` is `true`, `setup` when `p` is `false` — and when that hook
succeeds it writes the target value to the Flag Store (the store state
becomes the store's own `set_enabled(id, v)` result, and a
`storeWrite id v` event follows the hook event). -/
theorem C5_directional_hook (S : SiteFeatureStorage σ) (sys : SiteFeatureSystem σ α)
    (id : String) (v : Bool) (p : Bool) (f : SiteFeature α)
    (hp : S.get_enabled sys.storage id = p) (hne : p ≠ v)
    (hf : fmGet sys.features id = some f) :
    hookEvents (sys.set_enabled_ev S id v).2.2 =
      [cond p (Event.shutdownCall id) (Event.setupCall id)] ∧
    ((cond p f.runShutdown f.runSetup).2 = Except.ok () →
      (sys.set_enabled_ev S id v).1.storage = (S.set_enabled sys.storage id v).1 ∧
      (sys.set_enabled_ev S id v).2.2 =
        [cond p (Event.shutdownCall id) (Event.setupCall id), Event.storeWrite id v]) := by
  rw [set_enabled_ev_of_found S sys id v p f hp hne hf]
  cases h2 : (cond p f.runShutdown f.runSetup).2 with
  | error e =>
    constructor
    · cases p <;> simp [h2, hookEvents, Event.isHook]
    · intro hsucc
      simp at hsucc
  | ok u =>
    constructor
    · cases p <;> simp [h2, hookEvents, Event.isHook]
    · intro _
      simp [h2]

/-- C5 witness: enabling the disabled `"log"` feature invokes exactly the
`setup` hook and then writes `true` for `"log"` to the store. -/
theorem C5_witness :
    hookEvents (sysOneCounter.set_enabled_ev listStore "log" true).2.2 =
      [cond false (Event.shutdownCall "log") (Event.setupCall "log")] ∧
    ((sysOneCounter.set_enabled_ev listStore "log" true).1.storage =
        (listStore.set_enabled sysOneCounter.storage "log" true).1 ∧
      (sysOneCounter.set_enabled_ev listStore "log" true).2.2 =
        [cond false (Event.shutdownCall "log") (Event.setupCall "log"),
         Event.storeWrite "log" true]) :=
  ⟨(C5_directional_hook listStore sysOneCounter "log" true false counterFeature
      (by decide) (by decide) rfl).1,
   (C5_directional_hook listStore sysOneCounter "log" true false counterFeature
      (by decide) (by decide) rfl).2 rfl⟩

/-- C6: whenever the invoked lifecycle hook succeeds, `set_enabled` returns
success for every Flag Store — in particular for stores whose own
`set_enabled` write fails, since its result is discarded — and the hook's
in-memory side effect is already in the feature map. -/
theorem C6_store_write_failure_swallowed (S : SiteFeatureStorage σ)
    (sys : SiteFeatureSystem σ α) (id : String) (v : Bool) (p : Bool)
    (f f2 : SiteFeature α)
    (hp : S.get_enabled sys.storage id = p) (hne : p ≠ v)
    (hf : fmGet sys.features id = some f)
    (hsucc : cond p f.runShutdown f.runSetup = (f2, Except.ok ())) :
    (sys.set_enabled_ev S id v).2.1 = Except.ok () ∧
    (sys.set_enabled_ev S id v).1.features = fmReplace sys.features id f2 := by
  rw [set_enabled_ev_of_found S sys id v p f hp hne hf]
  simp [hsucc]

/-- C6 witness: over the store whose writes always fail, enabling `"log"`
still returns success and the counter feature's state has been set up
to 1. -/
theorem C6_witness :
    (sysOneCounter.set_enabled_ev brokenStore "log" true).2.1 = Except.ok () ∧
    (sysOneCounter.set_enabled_ev brokenStore "log" true).1.features =
      fmReplace sysOneCounter.features "log" { counterFeature with state := 1 } :=
  C6_store_write_failure_swallowed brokenStore sysOneCounter "log" true false
    counterFeature { counterFeature with state := 1 } (by decide) (by decide) rfl rfl

lemma add_feature_features (b : SiteFeatureBuilder α) (f : SiteFeature α) :
    (b.add_feature f).1.features = (fmInsert b.features f.id f).1 := by
  unfold SiteFeatureBuilder.add_feature
  cases hins : (fmInsert b.features f.id f).2 <;> simp [hins]

lemma add_feature_collision (b : SiteFeatureBuilder α) (f g : SiteFeature α)
    (hg : fmGet b.features f.id = some g) :
    (b.add_feature f).1.features = (fmInsert b.features f.id f).1 ∧
    (b.add_feature f).2 =
      [LogEntry.info (addInfoMsg f.name f.id),
       LogEntry.warn (overrideWarnMsg f.name f.id g.name)] := by
  have hins : (fmInsert b.features f.id f).2 = some g := by
    rw [fmInsert_prev]
    exact hg
  unfold SiteFeatureBuilder.add_feature
  simp [hins]

/-- C7: adding two features with the same identifier never errors; the
second silently replaces the first after the collision warning naming both
(its `warn!` line carries the new feature's name and the previous one's),
and only the second feature is retrievable under that identifier, both in
the builder and in the registry built from it. -/
theorem C7_duplicate_id_last_wins (b : SiteFeatureBuilder α) (f1 f2 : SiteFeature α)
    (st : σ) (h : f2.id = f1.id) :
    fmGet ((b.add_feature f1).1.add_feature f2).1.features f1.id = some f2 ∧
    ((b.add_feature f1).1.add_feature f2).2 =
      [LogEntry.info (addInfoMsg f2.name f2.id),
       LogEntry.warn (overrideWarnMsg f2.name f2.id f1.name)] ∧
    fmGet (((b.add_feature f1).1.add_feature f2).1.build st).features f1.id = some f2 := by
  have h1 : fmGet (b.add_feature f1).1.features f2.id = some f1 := by
    rw [h, add_feature_features b f1]
    exact fmGet_fmInsert_self b.features f1.id f1
  obtain ⟨hfeat2, hlog2⟩ := add_feature_collision (b.add_feature f1).1 f2 f1 h1
  refine ⟨?_, hlog2, ?_⟩
  · rw [hfeat2, ← h]
    exact fmGet_fmInsert_self (b.add_feature f1).1.features f2.id f2
  · show fmGet ((b.add_feature f1).1.add_feature f2).1.features f1.id = some f2
    rw [hfeat2, ← h]
    exact fmGet_fmInsert_self (b.add_feature f1).1.features f2.id f2

/-- The first of two colliding features registered under `"dup"`. -/
def dupFirst : SiteFeature Nat :=
  { state := 0
    setupFn := fun n => (n, Except.ok ())
    id := "dup"
    name := "First"
    routerFn := fun _ => Router.new }

/-- The second of two colliding features registered under `"dup"`. -/
def dupSecond : SiteFeature Nat :=
  { state := 0
    setupFn := fun n => (n, Except.ok ())
    id := "dup"
    name := "Second"
    routerFn := fun _ => Router.new }

/-- C7 witness: registering `dupFirst` then `dupSecond` under `"dup"`
leaves only `dupSecond` retrievable, with the collision warning naming
both. -/
theorem C7_witness :
    fmGet (((SiteFeatureBuilder.new : SiteFeatureBuilder Nat).add_feature
        dupFirst).1.add_feature dupSecond).1.features dupFirst.id = some dupSecond ∧
    (((SiteFeatureBuilder.new : SiteFeatureBuilder Nat).add_feature
        dupFirst).1.add_feature dupSecond).2 =
      [LogEntry.info (addInfoMsg dupSecond.name dupSecond.id),
       LogEntry.warn (overrideWarnMsg dupSecond.name dupSecond.id dupFirst.name)] ∧
    fmGet ((((SiteFeatureBuilder.new : SiteFeatureBuilder Nat).add_feature
        dupFirst).1.add_feature dupSecond).1.build
        ([] : List (String × Bool))).features dupFirst.id = some dupSecond :=
  C7_duplicate_id_last_wins SiteFeatureBuilder.new dupFirst dupSecond
    ([] : List (String × Bool)) rfl

/-- C8: the composite tree built by `get_router` nests, in iteration
order, exactly one sub-tree per registered feature — that feature's own
router under that feature's subpath — into an otherwise empty tree, and it
depends only on the feature map, not on the stored enabled flags. -/
theorem C8_route_composition (sys : SiteFeatureSystem σ α)
    (sys2 : SiteFeatureSystem τ α) :
    (sys.get_router).nestedPairs =
      sys.features.map (fun e => (e.2.subpath, e.2.routerFn e.2.state)) ∧
    (sys.features = sys2.features → sys.get_router = sys2.get_router) := by
  constructor
  · unfold SiteFeatureSystem.get_router
    rw [nestedPairs_foldl]
    simp [Router.nestedPairs]
  · intro hfe
    unfold SiteFeatureSystem.get_router
    rw [hfe]

/-- Feature `"a"` mounted at subpath `/a`. -/
def routeFeatureA : SiteFeature Nat :=
  { state := 0
    setupFn := fun n => (n, Except.ok ())
    id := "a"
    subpath := "/a"
    routerFn := fun _ => Router.new }

/-- Feature `"b"` mounted at subpath `/b`. -/
def routeFeatureB : SiteFeature Nat :=
  { state := 0
    setupFn := fun n => (n, Except.ok ())
    id := "b"
    subpath := "/b"
    routerFn := fun _ => Router.new }

/-- Registry with features `"a"` and `"b"`, both flags absent (disabled). -/
def sysRoutesDisabled : SiteFeatureSystem (List (String × Bool)) Nat :=
  { storage := [], features := [("a", routeFeatureA), ("b", routeFeatureB)] }

/-- The same feature map with both flags enabled in the store. -/
def sysRoutesEnabled : SiteFeatureSystem (List (String × Bool)) Nat :=
  { storage := [("a", true), ("b", true)]
    features := [("a", routeFeatureA), ("b", routeFeatureB)] }

/-- C8 witness: with `"a"` and `"b"` registered, the composite tree nests
exactly their two sub-trees under `/a` and `/b`, and the tree is the same
whether both flags are disabled or enabled. -/
theorem C8_witness :
    (sysRoutesDisabled.get_router).nestedPairs =
      sysRoutesDisabled.features.map (fun e => (e.2.subpath, e.2.routerFn e.2.state)) ∧
    sysRoutesDisabled.get_router = sysRoutesEnabled.get_router :=
  ⟨(C8_route_composition sysRoutesDisabled sysRoutesEnabled).1,
   (C8_route_composition sysRoutesDisabled sysRoutesEnabled).2 rfl⟩

/-- C9: `build` only wraps the builder's accumulated feature map and the
given store: the registry's feature map is exactly the builder's (each
feature's internal state included, so no hook has run) and its store state
is the one passed in, unread and unwritten. -/
theorem C9_build_wraps_unchanged (b : SiteFeatureBuilder α) (st : σ) :
    (b.build st).features = b.features ∧ (b.build st).storage = st :=
  ⟨rfl, rfl⟩

/-- C10: over any sequence of public registry operations, the set of
registered identifiers never changes: `get_enabled`, `get_all_ids` and
`get_router` leave the registry untouched, and `set_enabled` at most
replaces the feature stored under an existing key, so the feature map's
keys stay those fixed at build time. -/
theorem C10_registered_ids_invariant (S : SiteFeatureStorage σ)
    (sys : SiteFeatureSystem σ α) (ops : List RegistryOp) :
    fmKeys (runOps S sys ops).features = fmKeys sys.features := by
  induction ops generalizing sys with
  | nil => rfl
  | cons op rest ih =>
    show fmKeys (runOps S (runOp S sys op) rest).features = fmKeys sys.features
    rw [ih (runOp S sys op)]
    cases op with
    | setEnabled id v => exact fmKeys_set_enabled S sys id v
    | getEnabled id => rfl
    | getAllIds => rfl
    | getRouter => rfl
